import Mathlib

/-!
Shallow embedding of the simple-option CosmWasm contract
(`src/contract.rs`) and proofs of its specification claims.

Modelling choices:
* `HumanAddr` is a `String`; `Uint128` amounts are `Nat` (the contract
  only compares them for equality, never does arithmetic).
* `info.sent_funds : Vec<Coin>` and the stored fund fields are
  `List Coin`; Rust `Vec` equality is order-sensitive list equality,
  which `List` equality mirrors exactly.
* The singleton storage slot (`config` / `config_read`) is an
  `Option State`: `none` means no record, `save` replaces the content,
  `remove` sets it to `none`, `load` on `none` fails with `NotFound`
  (the `StdError::NotFound` that `Singleton::load` raises).
* Each handler is embedded in Rust source order as a function from the
  incoming storage (plus the call context) to the pair of the storage
  as it stands when the function returns and an `Except` carrying
  either the error or the emitted `BankMsg::Send` list.  An early
  `return Err(..)` in the Rust leaves storage as it currently is, so
  the embedding returns the storage threaded up to that point; this
  keeps the write-before-error behaviour observable.
* Response attributes (`add_attribute`) are metadata, not transfer
  instructions, and are not modelled; `Context::new()` starts with an
  empty message list and `add_message` appends.
* Error values: `Singleton::load` on an empty slot gives `notFound`;
  every explicit failure in the contract is `StdError::generic_err`
  with a fixed string, modelled by `genericErr`.  The funds-mismatch
  message in Rust appends `format!("{:?}", state.counter_offer)`; the
  rendering of that payload is not modelled, only the fixed prefix.
-/

/-- Coin from cosmwasm_std: a denomination paired with an amount. -/
structure Coin where
  denom : String
  amount : Nat
deriving DecidableEq, Repr

/-- State persisted by the contract (src/state.rs `State`). -/
structure State where
  creator : String
  owner : String
  collateral : List Coin
  counter_offer : List Coin
  expires : Nat
deriving DecidableEq, Repr

/-- BankMsg::Send — the only transfer instruction the contract emits. -/
structure BankMsgSend where
  from_address : String
  to_address : String
  amount : List Coin
deriving DecidableEq, Repr

/-- Errors the contract returns: `notFound` from loading an empty
singleton slot, `genericErr` for every `StdError::generic_err`. -/
inductive ContractError where
  | notFound
  | genericErr (msg : String)
deriving DecidableEq, Repr

/-- Result of one handler invocation: the storage as the handler leaves
it, and either the emitted `BankMsg::Send` list or the error. -/
abbrev HandlerResult := Option State × Except ContractError (List BankMsgSend)

/-- Embedding of `init` (src/contract.rs lines 11–31).  Rejects
`msg.expires <= env.block.height`, otherwise saves the new record with
`creator = owner = info.sender`, `collateral = info.sent_funds`, and the
submitted `counter_offer` and `expires`; `InitResponse::default()`
carries no messages. -/
def init (storage : Option State) (height : Nat) (sender : String)
    (sent_funds : List Coin) (counter_offer : List Coin) (expires : Nat) :
    HandlerResult :=
  if expires ≤ height then
    (storage, .error (.genericErr "Cannot create expired option"))
  else
    (some { creator := sender, owner := sender, collateral := sent_funds,
            counter_offer := counter_offer, expires := expires },
     .ok [])

/-- Embedding of `handle_transfer` (src/contract.rs lines 46–66).
Loads the record, requires `info.sender == state.owner`, sets the new
owner and saves; the response has attributes only, no messages. -/
def handle_transfer (storage : Option State) (sender : String)
    (recipient : String) : HandlerResult :=
  match storage with
  | none => (none, .error .notFound)
  | some state =>
    if sender ≠ state.owner then
      (some state, .error (.genericErr "Sender must be owner"))
    else
      (some { state with owner := recipient }, .ok [])

/-- Embedding of `handle_execute` (src/contract.rs lines 68–110).
Loads the record, checks owner, then expiry (`env.block.height >=
state.expires` fails), then exact funds (`info.sent_funds !=
state.counter_offer`, order-sensitive `Vec` equality); on success emits
counter_offer→creator then collateral→owner and removes the record. -/
def handle_execute (storage : Option State) (sender : String)
    (sent_funds : List Coin) (height : Nat) (contract_addr : String) :
    HandlerResult :=
  match storage with
  | none => (none, .error .notFound)
  | some state =>
    if sender ≠ state.owner then
      (some state, .error (.genericErr "Sender must be owner"))
    else if height ≥ state.expires then
      (some state, .error (.genericErr "option expired"))
    else if sent_funds ≠ state.counter_offer then
      (some state, .error (.genericErr "must send exact counter_offer"))
    else
      (none,
       .ok [{ from_address := contract_addr, to_address := state.creator,
              amount := state.counter_offer },
            { from_address := contract_addr, to_address := state.owner,
              amount := state.collateral }])

/-- Embedding of `handle_burn` (src/contract.rs lines 112–140).  Loads
the record, requires `env.block.height >= state.expires` (fails with
"option not yet expired" when `height < expires`), requires empty
`sent_funds`; on success emits collateral→creator and removes the
record.  The caller identity is never inspected. -/
def handle_burn (storage : Option State) (sender : String)
    (sent_funds : List Coin) (height : Nat) (contract_addr : String) :
    HandlerResult :=
  match storage with
  | none => (none, .error .notFound)
  | some state =>
    if height < state.expires then
      (some state, .error (.genericErr "option not yet expired"))
    else if ¬ sent_funds.isEmpty then
      (some state, .error (.genericErr "don\x27t send funds with burn"))
    else
      (none,
       .ok [{ from_address := contract_addr, to_address := state.creator,
              amount := state.collateral }])

/-- Embedding of `query_config` (src/contract.rs lines 152–157).  The
Rust function takes the storage by shared reference, so it cannot
mutate it and emits no messages; it returns the loaded record or the
load error. -/
def query_config (storage : Option State) : Except ContractError State :=
  match storage with
  | none => .error .notFound
  | some state => .ok state

/-- One invocation of any of the four state-changing entry points, for
stating properties uniformly over all of them. -/
inductive ContractAction where
  | create (sender : String) (sent_funds : List Coin)
      (counter_offer : List Coin) (expires : Nat) (height : Nat)
  | transfer (sender : String) (recipient : String)
  | execute (sender : String) (sent_funds : List Coin) (height : Nat)
      (contract_addr : String)
  | burn (sender : String) (sent_funds : List Coin) (height : Nat)
      (contract_addr : String)
deriving DecidableEq, Repr

/-- Dispatch of an `Action` to the corresponding handler, mirroring
`init` plus the `handle` match (src/contract.rs lines 34–45). -/
def applyAction (storage : Option State) : ContractAction → HandlerResult
  | .create sender sent_funds counter_offer expires height =>
      init storage height sender sent_funds counter_offer expires
  | .transfer sender recipient => handle_transfer storage sender recipient
  | .execute sender sent_funds height addr =>
      handle_execute storage sender sent_funds height addr
  | .burn sender sent_funds height addr =>
      handle_burn storage sender sent_funds height addr

/-- Well-formedness of a funds list as the spec describes it: a mapping
from denomination to strictly positive amount with no duplicate entries
for the same denomination.  This predicate formalizes the wording of
the data-model invariant in the spec; the contract source contains no
such check, which is exactly what the claims about it probe. -/
def wellFormedFunds (cs : List Coin) : Prop :=
  (∀ c ∈ cs, 0 < c.amount) ∧ (cs.map Coin.denom).Nodup

instance (cs : List Coin) : Decidable (wellFormedFunds cs) := by
  unfold wellFormedFunds; infer_instance

/-- States reachable from the empty instance by successful invocations
of the four entry points. -/
inductive Reachable : Option State → Prop where
  | start : Reachable none
  | step (s1 s2 : Option State) (a : ContractAction)
      (msgs : List BankMsgSend) : Reachable s1 →
      applyAction s1 a = (s2, .ok msgs) → Reachable s2

/-- States reachable from the empty instance by successful invocations
whose create calls all submitted well-formed attached funds and
counter-offer (the guard the amended invariant claim needs, since the
contract itself never validates them). -/
inductive WFReachable : Option State → Prop where
  | start : WFReachable none
  | step (s1 s2 : Option State) (a : ContractAction)
      (msgs : List BankMsgSend) : WFReachable s1 →
      (∀ sender funds co exp ht, a = .create sender funds co exp ht →
        wellFormedFunds funds ∧ wellFormedFunds co) →
      applyAction s1 a = (s2, .ok msgs) → WFReachable s2

/-- C1: when the caller equals the owner, the height is strictly below
expires, and the attached funds equal the counter-offer, exercise
succeeds, emits exactly two transfers in order — counter_offer from the
contract address to the creator, then collateral from the contract
address to the owner — and deletes the record. -/
theorem exercise_success_emits_and_deletes
    (st : State) (sender : String) (sent_funds : List Coin)
    (height : Nat) (addr : String)
    (hOwner : sender = st.owner) (hLive : height < st.expires)
    (hFunds : sent_funds = st.counter_offer) :
    handle_execute (some st) sender sent_funds height addr =
      (none,
       .ok [{ from_address := addr, to_address := st.creator,
              amount := st.counter_offer },
            { from_address := addr, to_address := st.owner,
              amount := st.collateral }]) := by
  simp [handle_execute, hOwner, hFunds, Nat.not_le.mpr hLive]

/-- Witness for C1 at the concrete scenario of the spec. -/
theorem exercise_success_emits_and_deletes_witness :
    handle_execute
        (some ⟨"creator", "owner", [⟨"BTC", 1⟩], [⟨"ETH", 40⟩], 100000⟩)
        "owner" [⟨"ETH", 40⟩] 99999 "contract" =
      (none,
       .ok [⟨"contract", "creator", [⟨"ETH", 40⟩]⟩,
            ⟨"contract", "owner", [⟨"BTC", 1⟩]⟩]) :=
  exercise_success_emits_and_deletes _ _ _ _ _ rfl (by decide) rfl

/-- C2: exercise validates in source order and fails with the first
violated check: not-owner gives the unauthorized error; otherwise
height at or beyond expires gives the expired error (so exercising at
exactly the expiration height fails); otherwise funds different from
the counter-offer give the mismatch error; otherwise it succeeds. -/
theorem exercise_check_order
    (st : State) (sender : String) (sent_funds : List Coin)
    (height : Nat) (addr : String) :
    (sender ≠ st.owner →
      handle_execute (some st) sender sent_funds height addr =
        (some st, .error (.genericErr "Sender must be owner"))) ∧
    (sender = st.owner → st.expires ≤ height →
      handle_execute (some st) sender sent_funds height addr =
        (some st, .error (.genericErr "option expired"))) ∧
    (sender = st.owner → height < st.expires →
      sent_funds ≠ st.counter_offer →
      handle_execute (some st) sender sent_funds height addr =
        (some st, .error (.genericErr "must send exact counter_offer"))) ∧
    (sender = st.owner → height < st.expires →
      sent_funds = st.counter_offer →
      ∃ msgs, handle_execute (some st) sender sent_funds height addr =
        (none, .ok msgs)) := by
  refine ⟨fun h1 => ?_, fun h1 h2 => ?_, fun h1 h2 h3 => ?_,
    fun h1 h2 h3 => ?_⟩
  · simp [handle_execute, h1]
  · simp [handle_execute, h1, h2]
  · simp [handle_execute, h1, h3, Nat.not_le.mpr h2]
  · exact ⟨[⟨addr, st.creator, st.counter_offer⟩,
      ⟨addr, st.owner, st.collateral⟩],
      by simp [handle_execute, h1, h3, Nat.not_le.mpr h2]⟩

/-- Witness for C2: exercising at exactly the expiration height fails
with the expired error even for the owner. -/
theorem exercise_check_order_witness :
    handle_execute (some ⟨"c", "o", [], [], 100⟩) "o" [] 100 "a" =
      (some ⟨"c", "o", [], [], 100⟩,
       .error (.genericErr "option expired")) :=
  (exercise_check_order ⟨"c", "o", [], [], 100⟩ "o" [] 100 "a").2.1
    rfl (by decide)

/-- C5: create fails exactly when expires is at or below the current
height, leaving storage untouched; when expires is strictly above the
height it succeeds with no messages and the stored record — as read
back by query — has creator = owner = caller, collateral = attached
funds, and the submitted counter_offer and expires. -/
theorem init_spec (storage : Option State) (height : Nat)
    (sender : String) (sent_funds : List Coin)
    (counter_offer : List Coin) (expires : Nat) :
    (expires ≤ height →
      init storage height sender sent_funds counter_offer expires =
        (storage, .error (.genericErr "Cannot create expired option"))) ∧
    (height < expires →
      init storage height sender sent_funds counter_offer expires =
        (some ⟨sender, sender, sent_funds, counter_offer, expires⟩,
         .ok []) ∧
      query_config
          (init storage height sender sent_funds counter_offer expires).1 =
        .ok ⟨sender, sender, sent_funds, counter_offer, expires⟩) := by
  refine ⟨fun h => ?_, fun h => ?_⟩
  · simp [init, h]
  · constructor
    · simp [init, Nat.not_le.mpr h]
    · simp [init, query_config, Nat.not_le.mpr h]

/-- Witness for C5: a create with expires 100000 at height 0 succeeds
and round-trips through query. -/
theorem init_spec_witness :
    init none 0 "creator" [⟨"BTC", 1⟩] [⟨"ETH", 40⟩] 100000 =
      (some ⟨"creator", "creator", [⟨"BTC", 1⟩], [⟨"ETH", 40⟩], 100000⟩,
       .ok []) :=
  ((init_spec none 0 "creator" [⟨"BTC", 1⟩] [⟨"ETH", 40⟩] 100000).2
    (by decide)).1

/-- C6: transfer by a non-owner fails with the unauthorized error and
leaves the record unchanged; transfer by the owner succeeds for any
target, sets owner to the target, keeps every other field, and emits
no messages. -/
theorem transfer_spec (st : State) (sender recipient : String) :
    (sender ≠ st.owner →
      handle_transfer (some st) sender recipient =
        (some st, .error (.genericErr "Sender must be owner"))) ∧
    (sender = st.owner →
      handle_transfer (some st) sender recipient =
        (some { st with owner := recipient }, .ok [])) := by
  refine ⟨fun h => ?_, fun h => ?_⟩
  · simp [handle_transfer, h]
  · simp [handle_transfer, h]

/-- Witness for C6: the creator-owner transfers to someone. -/
theorem transfer_spec_witness :
    handle_transfer
        (some ⟨"creator", "creator", [⟨"BTC", 1⟩], [⟨"ETH", 40⟩], 100000⟩)
        "creator" "someone" =
      (some ⟨"creator", "someone", [⟨"BTC", 1⟩], [⟨"ETH", 40⟩], 100000⟩,
       .ok []) :=
  (transfer_spec
    ⟨"creator", "creator", [⟨"BTC", 1⟩], [⟨"ETH", 40⟩], 100000⟩
    "creator" "someone").2 rfl

/-- C10: create never fails because a record already exists — with any
record present and expires strictly above the current height, create
succeeds and unconditionally replaces the record with the new one. -/
theorem init_overwrites_existing (old : State) (height : Nat)
    (sender : String) (sent_funds counter_offer : List Coin)
    (expires : Nat) (h : height < expires) :
    init (some old) height sender sent_funds counter_offer expires =
      (some ⟨sender, sender, sent_funds, counter_offer, expires⟩,
       .ok []) := by
  simp [init, Nat.not_le.mpr h]

/-- Witness for C10: a second create over a live record succeeds and
replaces it. -/
theorem init_overwrites_existing_witness :
    init (some ⟨"a", "b", [⟨"BTC", 1⟩], [⟨"ETH", 40⟩], 50⟩) 10 "x"
        [⟨"ATOM", 7⟩] [⟨"OSMO", 3⟩] 20 =
      (some ⟨"x", "x", [⟨"ATOM", 7⟩], [⟨"OSMO", 3⟩], 20⟩, .ok []) :=
  init_overwrites_existing ⟨"a", "b", [⟨"BTC", 1⟩], [⟨"ETH", 40⟩], 50⟩
    10 "x" [⟨"ATOM", 7⟩] [⟨"OSMO", 3⟩] 20 (by decide)

/-- C4: reclaim before expiration fails with the not-yet-expired error;
at or after expiration with non-empty attached funds it fails with the
unexpected-funds error; at or after expiration with no funds it
succeeds for any caller identity, emits exactly one transfer paying
collateral from the contract address to the creator, and deletes the
record — in particular reclaim at exactly the expiration height with
no funds succeeds. -/
theorem burn_spec (st : State) (sender : String) (sent_funds : List Coin)
    (height : Nat) (addr : String) :
    (height < st.expires →
      handle_burn (some st) sender sent_funds height addr =
        (some st, .error (.genericErr "option not yet expired"))) ∧
    (st.expires ≤ height → sent_funds ≠ [] →
      handle_burn (some st) sender sent_funds height addr =
        (some st, .error (.genericErr "don\x27t send funds with burn"))) ∧
    (st.expires ≤ height → sent_funds = [] →
      handle_burn (some st) sender sent_funds height addr =
        (none, .ok [{ from_address := addr, to_address := st.creator,
                      amount := st.collateral }])) := by
  refine ⟨fun h => ?_, fun h1 h2 => ?_, fun h1 h2 => ?_⟩
  · simp [handle_burn, h]
  · cases sent_funds with
    | nil => exact absurd rfl h2
    | cons c cs => simp [handle_burn, Nat.not_lt.mpr h1, List.isEmpty]
  · subst h2
    simp [handle_burn, Nat.not_lt.mpr h1, List.isEmpty]

/-- Witness for C4: any caller reclaims at exactly the expiration
height with no funds and the collateral goes back to the creator. -/
theorem burn_spec_witness :
    handle_burn (some ⟨"creator", "owner", [⟨"BTC", 1⟩], [⟨"ETH", 40⟩],
        100000⟩) "anyone" [] 100000 "contract" =
      (none, .ok [⟨"contract", "creator", [⟨"BTC", 1⟩]⟩]) :=
  (burn_spec ⟨"creator", "owner", [⟨"BTC", 1⟩], [⟨"ETH", 40⟩], 100000⟩
    "anyone" [] 100000 "contract").2.2 (by decide) rfl

/-- C9: query returns the full record whenever one exists, fails with
the not-found error when none exists, and after a successful exercise
or reclaim the resulting storage always queries as not found.  The
Rust `query_config` receives the storage by shared reference, so it
cannot mutate the record and its response type carries no messages. -/
theorem query_config_spec (storage : Option State) :
    (∀ st, storage = some st → query_config storage = .ok st) ∧
    (storage = none → query_config storage = .error .notFound) ∧
    (∀ sender sent_funds height addr s2 msgs,
      handle_execute storage sender sent_funds height addr =
        (s2, .ok msgs) →
      query_config s2 = .error .notFound) ∧
    (∀ sender sent_funds height addr s2 msgs,
      handle_burn storage sender sent_funds height addr =
        (s2, .ok msgs) →
      query_config s2 = .error .notFound) := by
  refine ⟨fun st h => ?_, fun h => ?_,
    fun sender sent_funds height addr s2 msgs h => ?_,
    fun sender sent_funds height addr s2 msgs h => ?_⟩
  · subst h; rfl
  · subst h; rfl
  · cases storage with
    | none => simp [handle_execute] at h
    | some st =>
      simp only [handle_execute] at h
      split at h
      · simp at h
      · split at h
        · simp at h
        · split at h
          · simp at h
          · obtain ⟨h1, h2⟩ := Prod.mk.injEq .. ▸ h
            subst h1; rfl
  · cases storage with
    | none => simp [handle_burn] at h
    | some st =>
      simp only [handle_burn] at h
      split at h
      · simp at h
      · split at h
        · simp at h
        · obtain ⟨h1, h2⟩ := Prod.mk.injEq .. ▸ h
          subst h1; rfl

/-- Witness for C9: querying the storage left by a successful exercise
fails with the not-found error. -/
theorem query_config_spec_witness :
    query_config none = .error .notFound :=
  (query_config_spec (some ⟨"c", "o", [], [], 10⟩)).2.2.1
    "o" [] 0 "a" none [⟨"a", "c", []⟩, ⟨"a", "o", []⟩] rfl

/-- Counterexample to C3: the attached funds are a permutation of the
counter-offer — same denominations, same amounts, different order —
yet exercise fails with the funds-mismatch error, because the source
compares `info.sent_funds != state.counter_offer` with order-sensitive
`Vec` equality. -/
theorem exercise_permuted_funds_mismatch_cex :
    ([⟨"B", 2⟩, ⟨"A", 1⟩] : List Coin).Perm [⟨"A", 1⟩, ⟨"B", 2⟩] ∧
    handle_execute
        (some ⟨"c", "o", [⟨"X", 5⟩], [⟨"A", 1⟩, ⟨"B", 2⟩], 100⟩) "o"
        [⟨"B", 2⟩, ⟨"A", 1⟩] 0 "addr" =
      (some ⟨"c", "o", [⟨"X", 5⟩], [⟨"A", 1⟩, ⟨"B", 2⟩], 100⟩,
       .error (.genericErr "must send exact counter_offer")) :=
  ⟨List.Perm.swap (⟨"A", 1⟩ : Coin) (⟨"B", 2⟩ : Coin) [], rfl⟩

/-- C3 amended: the funds comparison in exercise is order-sensitive
sequence equality on the coin list, not multiset equality — with the
owner calling before expiry, exercise fails with the funds-mismatch
error exactly when the attached funds list differs from the
counter-offer list as a sequence. -/
theorem exercise_funds_exact_sequence
    (st : State) (sent_funds : List Coin) (height : Nat) (addr : String)
    (hLive : height < st.expires) :
    (handle_execute (some st) st.owner sent_funds height addr).2 =
        .error (.genericErr "must send exact counter_offer") ↔
      sent_funds ≠ st.counter_offer := by
  by_cases h : sent_funds = st.counter_offer
  · simp [handle_execute, h, Nat.not_le.mpr hLive]
  · simp [handle_execute, h, Nat.not_le.mpr hLive]

/-- Witness for the amended C3: a strict-subset payment is rejected as
a funds mismatch. -/
theorem exercise_funds_exact_sequence_witness :
    (handle_execute (some ⟨"c", "o", [], [⟨"ETH", 40⟩], 10⟩) "o"
        [⟨"ETH", 39⟩] 0 "a").2 =
      .error (.genericErr "must send exact counter_offer") :=
  (exercise_funds_exact_sequence ⟨"c", "o", [], [⟨"ETH", 40⟩], 10⟩
    [⟨"ETH", 39⟩] 0 "a" (by decide)).mpr (by decide)

/-- C7: every failing invocation of any entry point leaves the stored
record exactly as it was — the error constructor of the result carries
no messages, so no transfer instruction is emitted either. -/
theorem error_atomicity (storage : Option State) (a : ContractAction)
    (e : ContractError)
    (h : (applyAction storage a).2 = .error e) :
    (applyAction storage a).1 = storage := by
  cases a with
  | create sender sent_funds counter_offer expires height =>
    simp only [applyAction, init] at h ⊢
    split at h
    · split
      · rfl
      · simp_all
    · simp at h
  | transfer sender recipient =>
    cases storage with
    | none => rfl
    | some st =>
      simp only [applyAction, handle_transfer] at h ⊢
      split at h
      · split
        · rfl
        · simp_all
      · simp at h
  | execute sender sent_funds height addr =>
    cases storage with
    | none => rfl
    | some st =>
      simp only [applyAction, handle_execute] at h ⊢
      split at h
      · split
        · rfl
        · simp_all
      · split at h
        · split
          · rfl
          · simp_all
        · split at h
          · split
            · rfl
            · simp_all
          · simp at h
  | burn sender sent_funds height addr =>
    cases storage with
    | none => rfl
    | some st =>
      simp only [applyAction, handle_burn] at h ⊢
      split at h
      · split
        · rfl
        · simp_all
      · split at h
        · split
          · rfl
          · simp_all
        · simp at h

/-- Witness for C7: a failing transfer by a non-owner leaves the
record in place. -/
theorem error_atomicity_witness :
    (applyAction (some ⟨"c", "o", [], [], 10⟩)
        (.transfer "anyone" "b")).1 =
      some ⟨"c", "o", [], [], 10⟩ :=
  error_atomicity (some ⟨"c", "o", [], [], 10⟩) (.transfer "anyone" "b")
    (.genericErr "Sender must be owner") rfl

/-- Counterexample to C8: a single create call with a duplicate,
zero-amount counter-offer succeeds and yields a reachable record whose
counter_offer violates the positive-amount / unique-denomination
invariant — the source stores `msg.counter_offer` verbatim with no
validation. -/
theorem create_illformed_counter_offer_cex :
    Reachable (some ⟨"alice", "alice", [⟨"BTC", 1⟩],
        [⟨"ETH", 0⟩, ⟨"ETH", 0⟩], 10⟩) ∧
    ¬ wellFormedFunds
        (State.counter_offer ⟨"alice", "alice", [⟨"BTC", 1⟩],
          [⟨"ETH", 0⟩, ⟨"ETH", 0⟩], 10⟩) :=
  ⟨Reachable.step none _
      (.create "alice" [⟨"BTC", 1⟩] [⟨"ETH", 0⟩, ⟨"ETH", 0⟩] 10 0) []
      Reachable.start rfl,
   by decide⟩

theorem wf_reachable_aux (s : Option State) (h : WFReachable s) :
    ∀ st, s = some st →
      wellFormedFunds st.collateral ∧ wellFormedFunds st.counter_offer := by
  induction h with
  | start => intro st hst; cases hst
  | step s1 s2 a msgs h1 hwf happ ih =>
    intro st hst
    subst hst
    cases a with
    | create sender sent_funds counter_offer expires height =>
      simp only [applyAction, init] at happ
      split at happ
      · simp at happ
      · rw [Prod.mk.injEq] at happ
        obtain ⟨h2, -⟩ := happ
        injection h2 with h2
        subst h2
        exact hwf sender sent_funds counter_offer expires height rfl
    | transfer sender recipient =>
      cases s1 with
      | none => simp [applyAction, handle_transfer] at happ
      | some st1 =>
        simp only [applyAction, handle_transfer] at happ
        split at happ
        · simp at happ
        · rw [Prod.mk.injEq] at happ
          obtain ⟨h2, -⟩ := happ
          injection h2 with h2
          subst h2
          exact ih st1 rfl
    | execute sender sent_funds height addr =>
      cases s1 with
      | none => simp [applyAction, handle_execute] at happ
      | some st1 =>
        simp only [applyAction, handle_execute] at happ
        split at happ
        · simp at happ
        · split at happ
          · simp at happ
          · split at happ
            · simp at happ
            · rw [Prod.mk.injEq] at happ
              obtain ⟨h2, -⟩ := happ
              simp at h2
    | burn sender sent_funds height addr =>
      cases s1 with
      | none => simp [applyAction, handle_burn] at happ
      | some st1 =>
        simp only [applyAction, handle_burn] at happ
        split at happ
        · simp at happ
        · split at happ
          · simp at happ
          · rw [Prod.mk.injEq] at happ
            obtain ⟨h2, -⟩ := happ
            simp at h2

/-- C8 amended: the contract stores the create inputs verbatim and no
later operation changes collateral or counter_offer, so the invariant
holds in every reachable record state provided every successful create
along the way submitted well-formed attached funds and counter-offer;
without that guard the invariant fails, as the counterexample shows. -/
theorem wf_reachable_invariant (st : State)
    (h : WFReachable (some st)) :
    wellFormedFunds st.collateral ∧ wellFormedFunds st.counter_offer :=
  wf_reachable_aux (some st) h st rfl

/-- Witness for the amended C8 at a one-step reachable state. -/
theorem wf_reachable_invariant_witness :
    wellFormedFunds ([⟨"BTC", 1⟩] : List Coin) ∧
    wellFormedFunds ([⟨"ETH", 40⟩] : List Coin) := by
  have hreach : WFReachable
      (some ⟨"c", "c", [⟨"BTC", 1⟩], [⟨"ETH", 40⟩], 100⟩) := by
    refine WFReachable.step none _
      (.create "c" [⟨"BTC", 1⟩] [⟨"ETH", 40⟩] 100 0) []
      WFReachable.start ?_ rfl
    intro sender funds co exp ht heq
    cases heq
    exact ⟨by decide, by decide⟩
  exact wf_reachable_invariant
    ⟨"c", "c", [⟨"BTC", 1⟩], [⟨"ETH", 40⟩], 100⟩ hreach
